import Mathlib

/-!
Shallow embedding of the two backend plugins of syndicate-fs-driver-plugins:
`src/sagfsdriver/plugins/local/local.py` and
`src/sagfsdriver/plugins/irods/irods.py`.

Python byte strings are modelled as `List Char`: the plugins first pass every
path through `encode('ascii', 'ignore')`, so the paths handled by the code are
plain ascii character sequences and the encoding step is the identity on them.
External collaborators (`os.stat`, `open`/`seek`/`read`, `pyinotify`,
`irods_client`) are oracles passed in as explicit function arguments; the
abstract base `sagfsdriver.lib.abstractfs` is not among the given source files,
so its two tiny pieces (`afsrole`, `afsstat`) are modelled from the spec.
-/

namespace SyndicateFS

/-- Python string (ascii byte string) as a list of characters. -/
abbrev PyStr := List Char

/-- Character list of a Lean string literal. -/
def pyOfString (s : String) : PyStr := s.data

/-- Python `s.rstrip("/")`: remove every trailing `'/'`. -/
def rstripSlash (s : PyStr) : PyStr :=
  ((s.reverse).dropWhile (fun c => c == '/')).reverse

/-- `self.dataset_root = dataset_root.rstrip("/")` as performed by
`plugin_impl.__init__` in both `local.py` (line 89) and `irods.py` (line 72). -/
def initDatasetRoot (raw : PyStr) : PyStr := rstripSlash raw

/-- Python `s.startswith(pre)`. -/
def pyStartswith (s pre : PyStr) : Bool := pre.isPrefixOf s

/-- Python `os.path.basename`: the part after the last `'/'`. -/
def basename (p : PyStr) : PyStr :=
  (p.reverse.takeWhile (fun c => c != '/')).reverse

/-- Python exceptions that the modelled code can raise or receive. -/
inductive PyErr where
  | ioError
  | attributeError
  | osError (code : Nat)
  deriving DecidableEq

/-- Modelled from the spec: `abstractfs.afsrole` (in `sagfsdriver/lib/abstractfs.py`,
not among the given sources) is an enumeration with a `DISCOVER` member; the two
plugins only ever compare their role against `DISCOVER`, every other member is a
passive role. -/
inductive Role where
  | discover
  | passive
  deriving DecidableEq

/-- Result of the `os.stat` oracle (only the fields the local plugin reads). -/
structure RawStat where
  isDir : Bool
  st_size : Nat
  st_ctime : Nat
  st_mtime : Nat
  deriving DecidableEq

/-- Result of the `irods_client.stat` oracle (fields the iRODS plugin reads). -/
structure IrodsRawStat where
  directory : Bool
  size : Nat
  checksum : Nat
  create_time : Nat
  modify_time : Nat
  deriving DecidableEq

/-- Modelled from the spec: `abstractfs.afsstat` (not among the given sources)
is the metadata record built with exactly the keyword arguments used at the
constructor calls in `local.py` `stat` and `irods.py` `stat`. -/
structure AfsStat where
  directory : Bool
  path : PyStr
  name : PyStr
  size : Nat
  checksum : Nat
  create_time : Nat
  modify_time : Nat
  deriving DecidableEq

/-- One entry of a delivered change batch (`entry` dict in `on_update_detected`). -/
structure ChangeEntry where
  path : PyStr
  stat : Option AfsStat
  deriving DecidableEq

/-- The three positional arguments of `notification_cb(modified, created, removed)`. -/
structure ChangeBatch where
  modified : List ChangeEntry
  created : List ChangeEntry
  removed : List ChangeEntry
  deriving DecidableEq

/-- Observable steps performed by `on_update_detected`. -/
inductive BridgeAction where
  | clearCache (p : PyStr)
  | statQuery (p : PyStr)
  | deliver (b : ChangeBatch)
  deriving DecidableEq

/-- The actions `on_update_detected` performs before returning or raising,
together with the exception that propagates out of the call, if any. -/
structure BridgeResult where
  trace : List BridgeAction
  err : Option PyErr
  deriving DecidableEq

/-- Resource actions observable during `connect` and `close`: `rm_watch` on the
watch-descriptor values, `notifier.stop()`, `notifier.start()`,
`watch_manager.add_watch(...)`, and `irods_client.close()`. -/
inductive CloseAction where
  | rmWatch (ws : List Nat)
  | notifierStop
  | notifierStart
  | addWatch
  | irodsSessionClose
  deriving DecidableEq

namespace Local

/-- State of a `local.py` `plugin_impl` instance relevant to `connect`/`close`.
`watchDirectory = none` models the `watch_directory` attribute being absent
(it is only ever assigned inside `connect`), so that reading it raises
`AttributeError`; `some ws` models it holding a watch dict whose values are
`ws` (truthy iff non-empty). `watchManagerSet` is the truthiness of
`self.watch_manager`, assigned in `__init__` for the DISCOVER role. -/
structure PluginState where
  role : Role
  datasetRoot : PyStr
  watchManagerSet : Bool
  watchDirectory : Option (List Nat)
  deriving DecidableEq

/-- `local.py` lines 76-100, `plugin_impl.__init__` (the parts of the state it
establishes: the rstripped dataset root, and for the DISCOVER role the watch
manager/notifier; `watch_directory` is left unassigned). -/
def plugin_init (rawRoot : PyStr) (role : Role) : PluginState :=
  { role := role, datasetRoot := initDatasetRoot rawRoot,
    watchManagerSet := decide (role = Role.discover), watchDirectory := none }

/-- `local.py` lines 160-166, `close`. Returns the release actions performed
and the exception propagating out, if any: reading the never-assigned
`self.watch_directory` raises `AttributeError` before `notifier.stop()` is
reached. The method never assigns any attribute, so the state is unchanged. -/
def close (s : PluginState) : List CloseAction × Option PyErr :=
  if s.role = Role.discover then
    if s.watchManagerSet then
      match s.watchDirectory with
      | none => ([], some PyErr.attributeError)
      | some ws =>
          if ws.isEmpty then ([CloseAction.notifierStop], none)
          else ([CloseAction.rmWatch ws, CloseAction.notifierStop], none)
    else ([CloseAction.notifierStop], none)
  else ([], none)

/-- `local.py` lines 143-158, `connect`, with oracles for `os.path.exists` on
the dataset root (`rootExists`), for `notifier.start()` succeeding (`startOk`)
and for `add_watch` (`addWatchResult`, `none` = it raised). The bare
`except: self.close()` catches the arming failure and does not re-raise, so
the original exception is swallowed; only an exception raised by `close`
itself propagates. -/
def connect (s : PluginState) (rootExists startOk : Bool)
    (addWatchResult : Option (List Nat)) :
    PluginState × List CloseAction × Option PyErr :=
  if s.role = Role.discover then
    if rootExists then
      if startOk then
        match addWatchResult with
        | some ws =>
            ({ s with watchDirectory := some ws },
             [CloseAction.notifierStart, CloseAction.addWatch], none)
        | none =>
            let c := close s
            (s, CloseAction.notifierStart :: c.1, c.2)
      else
        let c := close s
        (s, c.1, c.2)
    else (s, [], some PyErr.ioError)
  else (s, [], none)

/-- `local.py` lines 129-136, `_make_localfs_path`. -/
def _make_localfs_path (root path : PyStr) : PyStr :=
  if pyStartswith path root then path
  else if pyStartswith path (pyOfString ("/")) then root ++ path
  else root ++ pyOfString ("/") ++ path

/-- `local.py` lines 138-141, `_make_driver_path`. -/
def _make_driver_path (root path : PyStr) : PyStr :=
  if pyStartswith path root then path.drop root.length
  else path

/-- `local.py` lines 168-182, `stat`, with `os.stat` as an oracle; an oracle
error models `os.stat` raising (there is no `try` in `stat`, so it propagates). -/
def stat (root : PyStr) (osStat : PyStr → Except PyErr RawStat) (path : PyStr) :
    Except PyErr AfsStat :=
  let localfs_path := _make_localfs_path root path
  let driver_path := _make_driver_path root path
  match osStat localfs_path with
  | .error e => .error e
  | .ok sb =>
      .ok { directory := sb.isDir, path := driver_path, name := basename driver_path,
            size := sb.st_size, checksum := 0,
            create_time := sb.st_ctime, modify_time := sb.st_mtime }

/-- `local.py` lines 211-224, `read`: `open`+`seek`+`read` are one backend
oracle (all three sit inside the single `try`); any exception the oracle
raises is caught by `except Exception` and `buf` stays `None`. -/
def read (root : PyStr) (openRead : PyStr → Nat → Nat → Except PyErr PyStr)
    (filepath : PyStr) (offset size : Nat) : Option PyStr :=
  let localfs_path := _make_localfs_path root filepath
  match openRead localfs_path offset size with
  | .ok buf => some buf
  | .error _ => none

/-- `local.py` lines 108-127, `on_update_detected`. `hasCb` is the truthiness
of `self.notification_cb`. Note that the `self.stat(driver_path)` call at line
120 is not wrapped in any `try`, so a stat exception propagates (`err`). -/
def on_update_detected (root : PyStr) (osStat : PyStr → Except PyErr RawStat)
    (hasCb : Bool) (operation path : PyStr) : BridgeResult :=
  let driver_path := _make_driver_path root path
  if operation = pyOfString ("remove") then
    if hasCb then
      { trace := [.deliver { modified := [], created := [],
                             removed := [{ path := driver_path, stat := none }] }],
        err := none }
    else { trace := [], err := none }
  else if operation = pyOfString ("create") ∨ operation = pyOfString ("modify") then
    if hasCb then
      match stat root osStat driver_path with
      | .error e => { trace := [.statQuery driver_path], err := some e }
      | .ok st =>
          if operation = pyOfString ("create") then
            { trace := [.statQuery driver_path,
                        .deliver { modified := [],
                                   created := [{ path := driver_path, stat := some st }],
                                   removed := [] }],
              err := none }
          else if operation = pyOfString ("modify") then
            { trace := [.statQuery driver_path,
                        .deliver { modified := [{ path := driver_path, stat := some st }],
                                   created := [], removed := [] }],
              err := none }
          else { trace := [.statQuery driver_path], err := none }
    else { trace := [], err := none }
  else { trace := [], err := none }

end Local

namespace Irods

/-- State of an `irods.py` `plugin_impl` instance relevant to `close`:
`irodsSet` is the truthiness of `self.irods`, always assigned in `__init__`. -/
structure PluginState where
  role : Role
  datasetRoot : PyStr
  irodsSet : Bool
  deriving DecidableEq

/-- `irods.py` lines 41-93, `plugin_impl.__init__` (the state parts used by
`close`: the rstripped dataset root and the irods client object). -/
def plugin_init (rawRoot : PyStr) (role : Role) : PluginState :=
  { role := role, datasetRoot := initDatasetRoot rawRoot, irodsSet := true }

/-- `irods.py` lines 145-149, `close`: `if self.irods: self.irods.close()`.
The state is unchanged, so every call re-invokes the session close. -/
def close (s : PluginState) : List CloseAction × Option PyErr :=
  if s.irodsSet then ([CloseAction.irodsSessionClose], none) else ([], none)

/-- `irods.py` lines 123-130, `_make_irods_path` (same shape as the local one). -/
def _make_irods_path (root path : PyStr) : PyStr :=
  if pyStartswith path root then path
  else if pyStartswith path (pyOfString ("/")) then root ++ path
  else root ++ pyOfString ("/") ++ path

/-- `irods.py` lines 132-135, `_make_driver_path`. -/
def _make_driver_path (root path : PyStr) : PyStr :=
  if pyStartswith path root then path.drop root.length
  else path

/-- `irods.py` lines 151-165, `stat`, with `irods_client.stat` as an oracle. -/
def stat (root : PyStr) (iStat : PyStr → Except PyErr IrodsRawStat) (path : PyStr) :
    Except PyErr AfsStat :=
  let irods_path := _make_irods_path root path
  let driver_path := _make_driver_path root path
  match iStat irods_path with
  | .error e => .error e
  | .ok sb =>
      .ok { directory := sb.directory, path := driver_path, name := basename driver_path,
            size := sb.size, checksum := sb.checksum,
            create_time := sb.create_time, modify_time := sb.modify_time }

/-- `irods.py` lines 191-202, `read`, with `irods_client.read` as an oracle;
`except Exception` catches any oracle failure and `buf` stays `None`. -/
def read (root : PyStr) (irodsRead : PyStr → Nat → Nat → Except PyErr PyStr)
    (filepath : PyStr) (offset size : Nat) : Option PyStr :=
  let irods_path := _make_irods_path root filepath
  match irodsRead irods_path offset size with
  | .ok buf => some buf
  | .error _ => none

/-- `irods.py` lines 101-121, `on_update_detected`: identical to the local
bridge except that `self.clear_cache(driver_path)` is called first (line 105),
before the operation dispatch and before any stat. -/
def on_update_detected (root : PyStr) (iStat : PyStr → Except PyErr IrodsRawStat)
    (hasCb : Bool) (operation path : PyStr) : BridgeResult :=
  let driver_path := _make_driver_path root path
  let pre : List BridgeAction := [.clearCache driver_path]
  if operation = pyOfString ("remove") then
    if hasCb then
      { trace := pre ++ [.deliver { modified := [], created := [],
                                    removed := [{ path := driver_path, stat := none }] }],
        err := none }
    else { trace := pre, err := none }
  else if operation = pyOfString ("create") ∨ operation = pyOfString ("modify") then
    if hasCb then
      match stat root iStat driver_path with
      | .error e => { trace := pre ++ [.statQuery driver_path], err := some e }
      | .ok st =>
          if operation = pyOfString ("create") then
            { trace := pre ++ [.statQuery driver_path,
                        .deliver { modified := [],
                                   created := [{ path := driver_path, stat := some st }],
                                   removed := [] }],
              err := none }
          else if operation = pyOfString ("modify") then
            { trace := pre ++ [.statQuery driver_path,
                        .deliver { modified := [{ path := driver_path, stat := some st }],
                                   created := [], removed := [] }],
              err := none }
          else { trace := pre ++ [.statQuery driver_path], err := none }
    else { trace := pre, err := none }
  else { trace := pre, err := none }

end Irods

/-- Exactly one of the three sequences of a batch is non-empty and has length 1. -/
def exactlyOneKind (b : ChangeBatch) : Prop :=
  (b.modified.length = 1 ∧ b.created = [] ∧ b.removed = []) ∨
  (b.modified = [] ∧ b.created.length = 1 ∧ b.removed = []) ∨
  (b.modified = [] ∧ b.created = [] ∧ b.removed.length = 1)

/-- Whether a bridge action is a cache invalidation. -/
def isClearCache : BridgeAction → Bool
  | .clearCache _ => true
  | _ => false

/- Concrete oracles and instances used by witnesses and counterexamples. -/

/-- An `os.stat` oracle answering with an ordinary file of size 10. -/
def okFileOracle : PyStr → Except PyErr RawStat :=
  fun _ => .ok { isDir := false, st_size := 10, st_ctime := 5, st_mtime := 6 }

/-- An `os.stat` oracle answering with a directory of on-disk size 4096
(the usual ext4 value: `os.stat` does not report 0 for directories). -/
def dirOracle : PyStr → Except PyErr RawStat :=
  fun _ => .ok { isDir := true, st_size := 4096, st_ctime := 0, st_mtime := 0 }

/-- An `os.stat` oracle that raises: the path vanished. -/
def failStatOracle : PyStr → Except PyErr RawStat := fun _ => .error PyErr.ioError

/-- An `irods_client.stat` oracle that raises: the path vanished. -/
def failIrodsOracle : PyStr → Except PyErr IrodsRawStat := fun _ => .error PyErr.ioError

/-- A read oracle that raises an I/O error on every call. -/
def failReadOracle : PyStr → Nat → Nat → Except PyErr PyStr :=
  fun _ _ _ => .error PyErr.ioError

/-- A freshly constructed DISCOVER-role local plugin: `connect` never ran,
so the `watch_directory` attribute is absent. -/
def freshLocalDiscover : Local.PluginState :=
  Local.plugin_init (pyOfString ("/data")) Role.discover

/-- A DISCOVER-role local plugin after a successful `connect`: the
`watch_directory` attribute holds a non-empty watch dict. -/
def connectedLocal : Local.PluginState :=
  { role := Role.discover, datasetRoot := pyOfString ("/data"),
    watchManagerSet := true, watchDirectory := some [1] }

/- Helper lemmas about the path primitives. -/

lemma isPrefixOf_append_self (l r : List Char) : l.isPrefixOf (l ++ r) = true := by
  induction l with
  | nil => simp [List.isPrefixOf]
  | cons c t ih => simp [List.isPrefixOf, ih]

lemma pyStartswith_append_self (l r : PyStr) : pyStartswith (l ++ r) l = true :=
  isPrefixOf_append_self l r

lemma head?_of_slash_startswith (p : PyStr)
    (h : pyStartswith p (pyOfString ("/")) = true) : p.head? = some '/' := by
  cases p with
  | nil => simp [pyStartswith, pyOfString, List.isPrefixOf] at h
  | cons c t =>
      simp only [pyStartswith, pyOfString] at h
      have hc : ('/' == c) = true := by
        simpa [List.isPrefixOf] using h
      have : c = '/' := (eq_of_beq hc).symm
      simp [List.head?, this]

lemma startswith_slash_of_head? (p : PyStr) (h : p.head? ≠ some '/') :
    pyStartswith p (pyOfString ("/")) = false := by
  cases hs : pyStartswith p (pyOfString ("/")) with
  | true => exact absurd (head?_of_slash_startswith p hs) h
  | false => rfl

lemma head?_dropWhile_slash (l : List Char) :
    ((l.dropWhile (fun c => c == '/')).head? ≠ some '/') := by
  induction l with
  | nil => simp
  | cons c t ih =>
      by_cases hc : c = '/'
      · subst hc
        simpa [List.dropWhile_cons] using ih
      · simp [List.dropWhile_cons, hc]

lemma getLast?_rstripSlash (s : PyStr) : (rstripSlash s).getLast? ≠ some '/' := by
  unfold rstripSlash
  rw [List.getLast?_reverse]
  exact head?_dropWhile_slash _

/-- C1: for every canonical path `p` that is rooted at `'/'` and does not
already start with the dataset root, converting `p` to a backend-native path
and back yields `p` unchanged, in both the local plugin
(`_make_driver_path (_make_localfs_path p) = p`) and the iRODS plugin
(`_make_driver_path (_make_irods_path p) = p`). -/
theorem c1_round_trip (root p : PyStr)
    (h1 : pyStartswith p (pyOfString ("/")) = true)
    (h2 : pyStartswith p root = false) :
    Local._make_driver_path root (Local._make_localfs_path root p) = p ∧
    Irods._make_driver_path root (Irods._make_irods_path root p) = p := by
  have hL : Local._make_localfs_path root p = root ++ p := by
    simp [Local._make_localfs_path, h1, h2]
  have hI : Irods._make_irods_path root p = root ++ p := by
    simp [Irods._make_irods_path, h1, h2]
  constructor
  · rw [hL]
    simp [Local._make_driver_path, pyStartswith_append_self, List.drop_left]
  · rw [hI]
    simp [Irods._make_driver_path, pyStartswith_append_self, List.drop_left]

/-- C1 witness at dataset root `/data` and canonical path `/x`. -/
theorem c1_round_trip_witness :
    Local._make_driver_path (pyOfString ("/data"))
        (Local._make_localfs_path (pyOfString ("/data")) (pyOfString ("/x"))) =
      pyOfString ("/x") ∧
    Irods._make_driver_path (pyOfString ("/data"))
        (Irods._make_irods_path (pyOfString ("/data")) (pyOfString ("/x"))) =
      pyOfString ("/x") :=
  c1_round_trip (pyOfString ("/data")) (pyOfString ("/x")) (by decide) (by decide)

/-- C9: the stored dataset root (configured root after `rstrip("/")` in
`__init__`) never ends with `'/'`; constructing with `"/data/"` and with
`"/data"` yields identical path mappings in both plugins; and on a
`'/'`-rooted path that does not start with the root, `to_backend_path` is
plain concatenation whose join point cannot double a slash (the root's last
character is not `'/'` while the path's first character is `'/'`). -/
theorem c9_root_invariant (raw p q : PyStr) :
    (initDatasetRoot raw).getLast? ≠ some '/' ∧
    (Local._make_localfs_path (initDatasetRoot (pyOfString ("/data/"))) p =
        Local._make_localfs_path (initDatasetRoot (pyOfString ("/data"))) p ∧
      Local._make_driver_path (initDatasetRoot (pyOfString ("/data/"))) p =
        Local._make_driver_path (initDatasetRoot (pyOfString ("/data"))) p ∧
      Irods._make_irods_path (initDatasetRoot (pyOfString ("/data/"))) p =
        Irods._make_irods_path (initDatasetRoot (pyOfString ("/data"))) p ∧
      Irods._make_driver_path (initDatasetRoot (pyOfString ("/data/"))) p =
        Irods._make_driver_path (initDatasetRoot (pyOfString ("/data"))) p) ∧
    (pyStartswith q (pyOfString ("/")) = true →
      pyStartswith q (initDatasetRoot raw) = false →
        Local._make_localfs_path (initDatasetRoot raw) q = initDatasetRoot raw ++ q ∧
        Irods._make_irods_path (initDatasetRoot raw) q = initDatasetRoot raw ++ q ∧
        q.head? = some '/') := by
  have hroots : initDatasetRoot (pyOfString ("/data/")) =
      initDatasetRoot (pyOfString ("/data")) := by decide
  refine ⟨getLast?_rstripSlash raw, ?_, fun h1 h2 => ?_⟩
  · rw [hroots]
    exact ⟨rfl, rfl, rfl, rfl⟩
  · refine ⟨?_, ?_, head?_of_slash_startswith q h1⟩
    · simp [Local._make_localfs_path, h1, h2]
    · simp [Irods._make_irods_path, h1, h2]

/-- C9 witness at raw root `/data/` and path `/x`. -/
theorem c9_root_invariant_witness :
    (initDatasetRoot (pyOfString ("/data/"))).getLast? ≠ some '/' ∧
    Local._make_localfs_path (initDatasetRoot (pyOfString ("/data/"))) (pyOfString ("/x")) =
      Local._make_localfs_path (initDatasetRoot (pyOfString ("/data"))) (pyOfString ("/x")) ∧
    Local._make_localfs_path (initDatasetRoot (pyOfString ("/data/"))) (pyOfString ("/x")) =
      initDatasetRoot (pyOfString ("/data/")) ++ pyOfString ("/x") :=
  ⟨(c9_root_invariant (pyOfString ("/data/")) (pyOfString ("/x")) (pyOfString ("/x"))).1,
   (c9_root_invariant (pyOfString ("/data/")) (pyOfString ("/x")) (pyOfString ("/x"))).2.1.1,
   ((c9_root_invariant (pyOfString ("/data/")) (pyOfString ("/x"))
      (pyOfString ("/x"))).2.2 (by decide) (by decide)).1⟩

/-- C10: the dataset-root membership test is a raw character-prefix check:
for any path of the form `root ++ rest` where `rest` does not begin with
`'/'` (no component boundary), `to_backend_path` returns the path unchanged,
`to_canonical_path` strips exactly `root.length` leading characters giving
`rest`, and the result is not rooted at `'/'`; both plugins behave alike. -/
theorem c10_raw_prefix_check (root rest : PyStr) (h : rest.head? ≠ some '/') :
    Local._make_localfs_path root (root ++ rest) = root ++ rest ∧
    Local._make_driver_path root (root ++ rest) = rest ∧
    Irods._make_irods_path root (root ++ rest) = root ++ rest ∧
    Irods._make_driver_path root (root ++ rest) = rest ∧
    pyStartswith rest (pyOfString ("/")) = false := by
  have hpre := pyStartswith_append_self root rest
  refine ⟨?_, ?_, ?_, ?_, startswith_slash_of_head? rest h⟩
  · simp [Local._make_localfs_path, hpre]
  · simp [Local._make_driver_path, hpre, List.drop_left]
  · simp [Irods._make_irods_path, hpre]
  · simp [Irods._make_driver_path, hpre, List.drop_left]

/-- C10 witness: root `/data` and path `/database/x` (= `/data` ++ `base/x`). -/
theorem c10_raw_prefix_check_witness :
    Local._make_localfs_path (pyOfString ("/data"))
        (pyOfString ("/data") ++ pyOfString ("base/x")) =
      pyOfString ("/data") ++ pyOfString ("base/x") ∧
    Local._make_driver_path (pyOfString ("/data"))
        (pyOfString ("/data") ++ pyOfString ("base/x")) =
      pyOfString ("base/x") ∧
    Irods._make_irods_path (pyOfString ("/data"))
        (pyOfString ("/data") ++ pyOfString ("base/x")) =
      pyOfString ("/data") ++ pyOfString ("base/x") ∧
    Irods._make_driver_path (pyOfString ("/data"))
        (pyOfString ("/data") ++ pyOfString ("base/x")) =
      pyOfString ("base/x") ∧
    pyStartswith (pyOfString ("base/x")) (pyOfString ("/")) = false :=
  c10_raw_prefix_check (pyOfString ("/data")) (pyOfString ("base/x")) (by decide)

/-- C2: every batch an `on_update_detected` invocation delivers (in either
plugin, for any operation tag and path) has exactly one of its three
sequences (`modified`, `created`, `removed`) non-empty, and that sequence
has length exactly 1. -/
theorem c2_exactly_one_kind (root : PyStr) (osStat : PyStr → Except PyErr RawStat)
    (iStat : PyStr → Except PyErr IrodsRawStat) (hasCb : Bool)
    (operation path : PyStr) (b : ChangeBatch)
    (h : BridgeAction.deliver b ∈
           (Local.on_update_detected root osStat hasCb operation path).trace ∨
         BridgeAction.deliver b ∈
           (Irods.on_update_detected root iStat hasCb operation path).trace) :
    exactlyOneKind b := by
  rcases h with h | h
  · simp only [Local.on_update_detected] at h
    repeat' split at h
    all_goals simp_all [exactlyOneKind]
  · simp only [Irods.on_update_detected] at h
    repeat' split at h
    all_goals simp_all [exactlyOneKind]

/-- The batch delivered for a `create` raw event at `/data/x` with backend
stat answering a size-10 file (dataset root `/data`). -/
def sampleCreateBatch : ChangeBatch :=
  { modified := [],
    created := [{ path := pyOfString ("/x"),
                  stat := some { directory := false, path := pyOfString ("/x"),
                                 name := pyOfString ("x"), size := 10, checksum := 0,
                                 create_time := 5, modify_time := 6 } }],
    removed := [] }

/-- C2 witness: a concrete delivered batch has exactly one populated kind. -/
theorem c2_exactly_one_kind_witness : exactlyOneKind sampleCreateBatch :=
  c2_exactly_one_kind (pyOfString ("/data")) okFileOracle failIrodsOracle true
    (pyOfString ("create")) (pyOfString ("/data/x")) sampleCreateBatch
    (Or.inl (by decide))

/-- C3 counterexample: a `create` raw event whose synchronous re-stat raises
(the path vanished) is not swallowed: the exception propagates out of
`on_update_detected`, contradicting the claim that no error escapes. -/
theorem c3_counterexample :
    (Local.on_update_detected (pyOfString ("/data")) failStatOracle true
        (pyOfString ("create")) (pyOfString ("/data/x"))).err = some PyErr.ioError := by
  decide

/-- C3 amended: when the re-stat of a `create`/`modify` raw event fails, no
observer delivery occurs, but the stat exception is NOT swallowed: it
propagates out of `on_update_detected` (there is no `try` around the
`self.stat(driver_path)` call in either plugin). -/
theorem c3_amended_stat_failure_propagates (root : PyStr)
    (osStat : PyStr → Except PyErr RawStat) (iStat : PyStr → Except PyErr IrodsRawStat)
    (operation path : PyStr) (e1 e2 : PyErr)
    (hop : operation = pyOfString ("create") ∨ operation = pyOfString ("modify"))
    (h1 : osStat (Local._make_localfs_path root (Local._make_driver_path root path)) =
            .error e1)
    (h2 : iStat (Irods._make_irods_path root (Irods._make_driver_path root path)) =
            .error e2) :
    Local.on_update_detected root osStat true operation path =
      { trace := [.statQuery (Local._make_driver_path root path)], err := some e1 } ∧
    Irods.on_update_detected root iStat true operation path =
      { trace := [.clearCache (Irods._make_driver_path root path),
                  .statQuery (Irods._make_driver_path root path)], err := some e2 } := by
  have hcr : (pyOfString ("create") = pyOfString ("remove")) = False :=
    eq_false (by decide)
  have hmr : (pyOfString ("modify") = pyOfString ("remove")) = False :=
    eq_false (by decide)
  rcases hop with hop | hop <;> subst hop <;>
    exact ⟨by simp [Local.on_update_detected, Local.stat, hcr, hmr, h1],
           by simp [Irods.on_update_detected, Irods.stat, hcr, hmr, h2]⟩

/-- C3 amended witness: concrete vanished-path `create` event at `/data/x`. -/
theorem c3_amended_stat_failure_propagates_witness :
    Local.on_update_detected (pyOfString ("/data")) failStatOracle true
        (pyOfString ("create")) (pyOfString ("/data/x")) =
      { trace := [.statQuery (Local._make_driver_path (pyOfString ("/data"))
                    (pyOfString ("/data/x")))],
        err := some PyErr.ioError } ∧
    Irods.on_update_detected (pyOfString ("/data")) failIrodsOracle true
        (pyOfString ("create")) (pyOfString ("/data/x")) =
      { trace := [.clearCache (Irods._make_driver_path (pyOfString ("/data"))
                    (pyOfString ("/data/x"))),
                  .statQuery (Irods._make_driver_path (pyOfString ("/data"))
                    (pyOfString ("/data/x")))],
        err := some PyErr.ioError } :=
  c3_amended_stat_failure_propagates (pyOfString ("/data")) failStatOracle
    failIrodsOracle (pyOfString ("create")) (pyOfString ("/data/x"))
    PyErr.ioError PyErr.ioError (Or.inl rfl) rfl rfl

/-- C4 counterexample: in the local plugin, a `modify` raw event triggers a
re-stat while the whole invocation performs no `clear_cache` call at all
(no invalidation precedes the stat), contradicting the claim for every
plugin. -/
theorem c4_counterexample :
    BridgeAction.statQuery (pyOfString ("/x")) ∈
      (Local.on_update_detected (pyOfString ("/data")) okFileOracle true
        (pyOfString ("modify")) (pyOfString ("/data/x"))).trace ∧
    (Local.on_update_detected (pyOfString ("/data")) okFileOracle true
        (pyOfString ("modify")) (pyOfString ("/data/x"))).trace.all
      (fun a => ! isClearCache a) = true := by
  decide

/-- C4 amended: only the iRODS plugin invalidates before re-statting: its
`on_update_detected` always performs `clear_cache` on the event's driver path
as its very first action (hence before any stat); the local plugin's
`on_update_detected` never calls `clear_cache` at all (its `clear_cache` is a
no-op since it keeps no cache). -/
theorem c4_amended_invalidation (root : PyStr)
    (osStat : PyStr → Except PyErr RawStat) (iStat : PyStr → Except PyErr IrodsRawStat)
    (hasCb : Bool) (operation path : PyStr) :
    (Irods.on_update_detected root iStat hasCb operation path).trace.head? =
      some (BridgeAction.clearCache (Irods._make_driver_path root path)) ∧
    (Local.on_update_detected root osStat hasCb operation path).trace.all
      (fun a => ! isClearCache a) = true := by
  constructor
  · simp only [Irods.on_update_detected]
    repeat' split
    all_goals simp
  · simp only [Local.on_update_detected]
    repeat' split
    all_goals simp [isClearCache]

/-- C5 counterexample: on a DISCOVER-role local plugin whose `connect` never
ran, `close()` raises `AttributeError` (the `watch_directory` attribute was
never assigned), contradicting the claim that `close()` raises no error when
`connect()` was never called. -/
theorem c5_counterexample :
    (Local.close freshLocalDiscover).2 = some PyErr.attributeError := by
  decide

/-- C5 amended: `close()` is a safe no-op for passive-role instances and never
errors at the plugin level in the iRODS plugin, but in the local plugin a
DISCOVER-role `close()` before any successful `connect` raises
`AttributeError`; and `close()` is not guarded for idempotency: the watched
state is never cleared, so each call re-issues the release actions
(`rm_watch` + `notifier.stop()`, resp. the iRODS session close). -/
theorem c5_amended_close_behavior (rawRoot : PyStr) (role : Role)
    (s s' : Local.PluginState) (ws : List Nat) (t : Irods.PluginState) :
    (role ≠ Role.discover → Local.close (Local.plugin_init rawRoot role) = ([], none)) ∧
    (s.role = Role.discover → s.watchManagerSet = true → s.watchDirectory = none →
       Local.close s = ([], some PyErr.attributeError)) ∧
    (s'.role = Role.discover → s'.watchManagerSet = true → s'.watchDirectory = some ws →
       ws.isEmpty = false →
       Local.close s' = ([CloseAction.rmWatch ws, CloseAction.notifierStop], none)) ∧
    (t.irodsSet = true → Irods.close t = ([CloseAction.irodsSessionClose], none)) := by
  refine ⟨fun h => ?_, fun h1 h2 h3 => ?_, fun h1 h2 h3 h4 => ?_, fun h => ?_⟩
  · simp [Local.close, Local.plugin_init, h]
  · simp [Local.close, h1, h2, h3]
  · simp [Local.close, h1, h2, h3, h4]
  · simp [Irods.close, h]

/-- C5 amended witness: the four behaviors at concrete instances. -/
theorem c5_amended_close_behavior_witness :
    Local.close (Local.plugin_init (pyOfString ("/data")) Role.passive) = ([], none) ∧
    Local.close freshLocalDiscover = ([], some PyErr.attributeError) ∧
    Local.close connectedLocal =
      ([CloseAction.rmWatch [1], CloseAction.notifierStop], none) ∧
    Irods.close (Irods.plugin_init (pyOfString ("/data")) Role.discover) =
      ([CloseAction.irodsSessionClose], none) :=
  ⟨(c5_amended_close_behavior (pyOfString ("/data")) Role.passive
      freshLocalDiscover connectedLocal [1]
      (Irods.plugin_init (pyOfString ("/data")) Role.discover)).1 (by decide),
   (c5_amended_close_behavior (pyOfString ("/data")) Role.passive
      freshLocalDiscover connectedLocal [1]
      (Irods.plugin_init (pyOfString ("/data")) Role.discover)).2.1
      (by decide) (by decide) (by decide),
   (c5_amended_close_behavior (pyOfString ("/data")) Role.passive
      freshLocalDiscover connectedLocal [1]
      (Irods.plugin_init (pyOfString ("/data")) Role.discover)).2.2.1
      rfl rfl rfl (by decide),
   (c5_amended_close_behavior (pyOfString ("/data")) Role.passive
      freshLocalDiscover connectedLocal [1]
      (Irods.plugin_init (pyOfString ("/data")) Role.discover)).2.2.2 rfl⟩

/-- C6 counterexample: on a DISCOVER instance with an armed earlier watch,
when `add_watch` fails during `connect` (dataset root exists, notifier
started), the bare `except: self.close()` swallows the failure: `connect`
returns without any error, so the caller does not observe it. On a fresh
instance the started notifier is never stopped: the trace has
`notifierStart` but no `notifierStop`, a half-open watch. -/
theorem c6_counterexample :
    (Local.connect connectedLocal true true none).2.2 = none ∧
    (Local.connect freshLocalDiscover true true none).2.1 =
      [CloseAction.notifierStart] := by
  decide

/-- C6 amended: a failure to arm the watch triggers `close()`, but the arming
error itself never propagates: if `watch_directory` is already set, `close()`
completes and `connect` returns normally (error swallowed); if
`watch_directory` was never assigned (first connect), `close()` itself raises
`AttributeError`, which propagates in place of the arming error, and a
notifier that had started is left running (no `notifierStop` in the trace). -/
theorem c6_amended_connect_arm_failure (s : Local.PluginState) (ws : List Nat)
    (hrole : s.role = Role.discover) (hwm : s.watchManagerSet = true) :
    (s.watchDirectory = none →
       Local.connect s true true none =
         (s, [CloseAction.notifierStart], some PyErr.attributeError)) ∧
    (s.watchDirectory = some ws → ws.isEmpty = false →
       Local.connect s true true none =
         (s, [CloseAction.notifierStart, CloseAction.rmWatch ws,
              CloseAction.notifierStop], none)) ∧
    (s.watchDirectory = none →
       Local.connect s true false none = (s, [], some PyErr.attributeError)) ∧
    (s.watchDirectory = some ws → ws.isEmpty = false →
       Local.connect s true false none =
         (s, [CloseAction.rmWatch ws, CloseAction.notifierStop], none)) := by
  refine ⟨fun h => ?_, fun h h' => ?_, fun h => ?_, fun h h' => ?_⟩ <;>
    simp [Local.connect, Local.close, hrole, hwm, h, *]

/-- C6 amended witness: both connect-failure behaviors at concrete states. -/
theorem c6_amended_connect_arm_failure_witness :
    Local.connect freshLocalDiscover true true none =
      (freshLocalDiscover, [CloseAction.notifierStart], some PyErr.attributeError) ∧
    Local.connect connectedLocal true true none =
      (connectedLocal, [CloseAction.notifierStart, CloseAction.rmWatch [1],
                        CloseAction.notifierStop], none) :=
  ⟨(c6_amended_connect_arm_failure freshLocalDiscover [1] rfl (by decide)).1 rfl,
   (c6_amended_connect_arm_failure connectedLocal [1] rfl rfl).2.1 rfl (by decide)⟩

/-- C7: if the backend I/O operation underlying `read(path, offset, size)`
raises, `read` returns an absent result (`none`) instead of raising, in both
plugins (the `except Exception` catches the oracle failure and the preset
`buf = None` is returned). -/
theorem c7_read_failure_returns_none (root filepath : PyStr) (offset size : Nat)
    (openRead irodsRd : PyStr → Nat → Nat → Except PyErr PyStr) (e1 e2 : PyErr)
    (h1 : openRead (Local._make_localfs_path root filepath) offset size = .error e1)
    (h2 : irodsRd (Irods._make_irods_path root filepath) offset size = .error e2) :
    Local.read root openRead filepath offset size = none ∧
    Irods.read root irodsRd filepath offset size = none := by
  constructor
  · simp [Local.read, h1]
  · simp [Irods.read, h2]

/-- C7 witness: `read("/missing.bin", 0, 100)` against an always-raising
backend returns `none` in both plugins. -/
theorem c7_read_failure_returns_none_witness :
    Local.read (pyOfString ("/data")) failReadOracle
      (pyOfString ("/missing.bin")) 0 100 = none ∧
    Irods.read (pyOfString ("/data")) failReadOracle
      (pyOfString ("/missing.bin")) 0 100 = none :=
  c7_read_failure_returns_none (pyOfString ("/data")) (pyOfString ("/missing.bin"))
    0 100 failReadOracle failReadOracle PyErr.ioError PyErr.ioError rfl rfl

/-- C8 counterexample: against a backend whose `os.stat` reports a directory
with on-disk size 4096 (the usual ext4 value), `stat` returns a metadata
record that is a directory yet has size 4096, not 0: the claim that
directories stat with size 0 fails on the code, which forwards `st_size`
unchanged. -/
theorem c8_counterexample :
    (Local.stat (pyOfString ("/data")) dirOracle (pyOfString ("/sub"))).toOption.map
        AfsStat.directory = some true ∧
    (Local.stat (pyOfString ("/data")) dirOracle (pyOfString ("/sub"))).toOption.map
        AfsStat.size ≠ some 0 := by
  decide

/-- C8 amended: `stat` forwards the backend-reported `st_size` unchanged
(a non-negative count, so `size` is always a non-negative integer), including
for directories — the record's `size` is whatever the backend reports for the
entry, not necessarily 0 for directories. -/
theorem c8_amended_stat_forwards_size (root path : PyStr)
    (osStat : PyStr → Except PyErr RawStat) (sb : RawStat)
    (h : osStat (Local._make_localfs_path root path) = .ok sb) :
    Local.stat root osStat path =
      Except.ok { directory := sb.isDir, path := Local._make_driver_path root path,
                  name := basename (Local._make_driver_path root path),
                  size := sb.st_size, checksum := 0,
                  create_time := sb.st_ctime, modify_time := sb.st_mtime } := by
  simp [Local.stat, h]

/-- C8 amended witness: the 4096-byte backend directory is forwarded as-is. -/
theorem c8_amended_stat_forwards_size_witness :
    Local.stat (pyOfString ("/data")) dirOracle (pyOfString ("/sub")) =
      Except.ok { directory := true,
                  path := Local._make_driver_path (pyOfString ("/data"))
                            (pyOfString ("/sub")),
                  name := basename (Local._make_driver_path (pyOfString ("/data"))
                            (pyOfString ("/sub"))),
                  size := 4096, checksum := 0, create_time := 0, modify_time := 0 } :=
  c8_amended_stat_forwards_size (pyOfString ("/data")) (pyOfString ("/sub"))
    dirOracle { isDir := true, st_size := 4096, st_ctime := 0, st_mtime := 0 } rfl

end SyndicateFS
